import Mathlib

/-!
Shallow embedding of `src/check_schema.py` (xBOT schema-check diagnostic).

The script is a linear sequence: read `DATABASE_URL` from the environment,
connect to the database, query the catalog for the columns of the
`post_attribution` table, compare them with a fixed essential list, query
the total row count, and — only when the count is positive — query 7-day
aggregate statistics, formatting and printing every result.  A single
top-level `except Exception` handler turns any raised exception into a
generic printed database error and exit status 1, while `exit(1)` (which
raises `SystemExit`, not a subclass of `Exception`) passes through it.

The embedding models the database as a `World` record holding each query
result together with an optional injected exception per database
operation, and models the run as a pure function from the environment and
the world to the produced output lines, the exit status, and flags
recording which queries were issued and which resources were released.
-/

namespace CheckSchema

/-- A column descriptor as returned by the information-schema query:
column name, data type, and the nullability flag (the strings YES / NO). -/
structure ColumnInfo where
  column_name : String
  data_type : String
  is_nullable : String
deriving DecidableEq

/-- One row of the `post_attribution` table.  The three metric columns are
nullable, hence `Option`-valued; `posted_at` is an epoch timestamp in
seconds. -/
structure Row where
  engagement_rate : Option Rat
  impressions : Option Int
  followers_gained : Option Int
  posted_at : Int
deriving DecidableEq

/-- The database world the script runs against: the data behind each of the
three queries, plus an optional injected exception for the connection and
for each query (modelling network failures, SQL errors, and so on). -/
structure World where
  connectErr : Option String
  columnsErr : Option String
  columns : List ColumnInfo
  countErr : Option String
  aggErr : Option String
  rows : List Row
  now : Int
deriving DecidableEq

/-- `INTERVAL '7 days'` in seconds. -/
def sevenDays : Int := 7 * 24 * 60 * 60

/-- The rows selected by `WHERE posted_at > NOW() - INTERVAL '7 days'`. -/
def recentRows (w : World) : List Row :=
  w.rows.filter (fun r => decide (w.now - sevenDays < r.posted_at))

/-- SQL `COALESCE(x, 0)` on a nullable numeric value. -/
def coalesceRat (o : Option Rat) : Rat := o.getD 0

/-- SQL `COALESCE(x, 0)` on a nullable integer value. -/
def coalesceInt (o : Option Int) : Int := o.getD 0

/-- The result row of the 7-day aggregate query.  SQL `AVG` and `MAX`
return NULL on an empty selection, hence the `Option` fields. -/
structure AggStats where
  total_posts : Nat
  avg_engagement : Option Rat
  avg_views : Option Rat
  avg_followers : Option Rat
  most_recent_post : Option Int
deriving DecidableEq

/-- SQL `AVG` over the selected values: NULL on the empty selection,
otherwise the exact mean. -/
def sqlAvg (xs : List Rat) : Option Rat :=
  if xs.isEmpty then none else some (xs.sum / (xs.length : Rat))

/-- The 7-day aggregate query of the script: count, three averages of
`COALESCE(col, 0)`, and `MAX(posted_at)`, over the 7-day window. -/
def aggQuery (w : World) : AggStats :=
  let rs := recentRows w
  { total_posts := rs.length
    avg_engagement := sqlAvg (rs.map (fun r => coalesceRat r.engagement_rate))
    avg_views := sqlAvg (rs.map (fun r => ((coalesceInt r.impressions : Int) : Rat)))
    avg_followers := sqlAvg (rs.map (fun r => ((coalesceInt r.followers_gained : Int) : Rat)))
    most_recent_post := (rs.map Row.posted_at).max? }

/-- The fixed list of essential column names (source line 38). -/
def essential_columns : List String :=
  ["engagement_rate", "impressions", "followers_gained", "hook_pattern",
   "topic", "generator_used"]

/-- The list comprehension of source line 41:
`[col for col in essential_columns if col not in existing_columns]`. -/
def missing_columns (existing_columns : List String) : List String :=
  essential_columns.filter (fun col => !(existing_columns.contains col))

/-- Round a rational to the nearest integer, ties to even, matching the
rounding used by CPython float formatting on exactly representable
values. -/
def roundHalfEven (q : Rat) : Int :=
  let f := ⌊q⌋
  if q - (f : Rat) < (1 : Rat) / 2 then f
  else if (1 : Rat) / 2 < q - (f : Rat) then f + 1
  else if f % 2 = 0 then f else f + 1

/-- The last `d` decimal digits of `n`, most significant first. -/
def fracDigits : Nat → Nat → List Char
  | 0, _ => []
  | d + 1, n => fracDigits d (n / 10) ++ [Nat.digitChar (n % 10)]

/-- The fractional part of a fixed-point rendering: exactly `d` digit
characters, the last `d` decimal digits of `n`, zero-padded. -/
def fracStr (n d : Nat) : String :=
  String.mk (fracDigits d n)

/-- Python fixed-point formatting `:.df` of a (float) value, modelled on
exact rationals: round at `d` decimal places, then render with exactly
`d` digits after the point (no point at all when `d = 0`). -/
def formatFixed (q : Rat) (d : Nat) : String :=
  let m := roundHalfEven (q * (10 : Rat) ^ d)
  let sign := if m < 0 then "-" else ""
  let a := m.natAbs
  if d = 0 then sign ++ Nat.repr a
  else sign ++ Nat.repr (a / 10 ^ d) ++ "." ++ fracStr (a % 10 ^ d) d

/-- Python `x or 0` on a nullable numeric: `0` when the value is falsy
(None or zero), else the value itself. -/
def orZeroRat (o : Option Rat) : Rat :=
  match o with
  | none => 0
  | some q => if q = 0 then 0 else q

/-- Printing a nullable timestamp: Python prints `None` for NULL. -/
def optTimeStr (o : Option Int) : String :=
  match o with
  | none => "None"
  | some t => toString t

/-- An ASCII apostrophe, used by the Python list repr. -/
def apos : String := String.singleton (Char.ofNat 39)

/-- Python repr of a list of strings, as printed by an f-string. -/
def pyListRepr (xs : List String) : String :=
  "[" ++ String.intercalate ", " (xs.map (fun s => apos ++ s ++ apos)) ++ "]"

def msgNoUrl : String := "❌ DATABASE_URL not found in environment"

def msgChecking : String := "🔍 Checking post_attribution table schema..."

def msgNoTable : String :=
  "❌ post_attribution table doesn" ++ apos ++ "t exist!"

def foundLine (n : Nat) : String :=
  "📋 Found " ++ toString n ++ " columns in post_attribution table:"

def columnLine (c : ColumnInfo) : String :=
  "  - " ++ c.column_name ++ ": " ++ c.data_type ++ " (" ++
    (if c.is_nullable = "YES" then "NULL" else "NOT NULL") ++ ")"

def msgMissing (missing : List String) : String :=
  "\n❌ MISSING ESSENTIAL COLUMNS: " ++ pyListRepr missing

def msgMissingTool : String :=
  "🔧 These columns are required for learning loops to work!"

def msgAllExist : String := "\n✅ All essential columns exist!"

def countLine (n : Nat) : String :=
  "\n📈 Total posts in post_attribution: " ++ toString n

def statsHeader : String := "📊 Last 7 days stats:"

def postsLine (n : Nat) : String := "  - Posts: " ++ toString n

def engagementLine (s : AggStats) : String :=
  "  - Avg Engagement: " ++ formatFixed (orZeroRat s.avg_engagement * 100) 2 ++ "%"

def viewsLine (s : AggStats) : String :=
  "  - Avg Views: " ++ formatFixed (orZeroRat s.avg_views) 0

def followersLine (s : AggStats) : String :=
  "  - Avg Followers: " ++ formatFixed (orZeroRat s.avg_followers) 1

def recentLine (s : AggStats) : String :=
  "  - Most Recent: " ++ optTimeStr s.most_recent_post

/-- The six lines printed for the 7-day statistics (source lines 68-73). -/
def statsLines (s : AggStats) : List String :=
  [statsHeader, postsLine s.total_posts, engagementLine s, viewsLine s,
   followersLine s, recentLine s]

/-- The generic handler output: `❌ Database error: {e}` (source line 79). -/
def dbErrorLine (m : String) : String := "❌ Database error: " ++ m

/-- How the `try` block body terminates, in Python terms: falling off the
end normally, `exit(c)` (which raises `SystemExit`, NOT a subclass of
`Exception`), or an ordinary exception carrying its message. -/
inductive Term where
  | normal
  | systemExit (code : Nat)
  | exn (msg : String)
deriving DecidableEq

/-- What running the `try` block body produced: the printed lines, flags
for the row-count and aggregate queries having been issued, flags for the
cursor and connection having been closed, and the termination kind. -/
structure BodyResult where
  output : List String
  countIssued : Bool
  aggIssued : Bool
  curClosed : Bool
  connClosed : Bool
  term : Term
deriving DecidableEq

/-- The lines printed by the missing-columns check (source lines 43-47). -/
def missingPart (missing : List String) : List String :=
  if missing.isEmpty then [msgAllExist]
  else [msgMissing missing, msgMissingTool]

/-- The body of the `try` block (source lines 15-76), step by step:
connect, catalog query, table-existence gate, per-column report,
missing-columns check, row count, conditional 7-day aggregate, close. -/
def tryBody (w : World) : BodyResult :=
  match w.connectErr with
  | some m => ⟨[], false, false, false, false, Term.exn m⟩
  | none =>
    match w.columnsErr with
    | some m => ⟨[], false, false, false, false, Term.exn m⟩
    | none =>
      if w.columns.isEmpty then
        ⟨[msgNoTable], false, false, false, false, Term.systemExit 1⟩
      else
        let existing := w.columns.map ColumnInfo.column_name
        let out1 := foundLine w.columns.length :: w.columns.map columnLine
          ++ missingPart (missing_columns existing)
        match w.countErr with
        | some m => ⟨out1, true, false, false, false, Term.exn m⟩
        | none =>
          let count := w.rows.length
          let out2 := out1 ++ [countLine count]
          if 0 < count then
            match w.aggErr with
            | some m => ⟨out2, true, true, false, false, Term.exn m⟩
            | none =>
              ⟨out2 ++ statsLines (aggQuery w), true, true, true, true, Term.normal⟩
          else
            ⟨out2, true, false, true, true, Term.normal⟩

/-- Python truthiness of the `DATABASE_URL` lookup: `os.getenv` yields
`None` when unset, and `not DATABASE_URL` is also true for the empty
string. -/
def urlTruthy (env : Option String) : Bool :=
  match env with
  | none => false
  | some s => !(s.isEmpty)

/-- The observable outcome of one run of the script. -/
structure RunResult where
  output : List String
  exitCode : Nat
  connectAttempted : Bool
  countIssued : Bool
  aggIssued : Bool
  curClosed : Bool
  connClosed : Bool
deriving DecidableEq

/-- The whole script: the configuration gate (source lines 7-10), then the
`try` body under the single `except Exception` handler (source lines
78-80).  An exception becomes the generic printed error and exit 1; a
`SystemExit` passes through the handler untouched; normal fall-through
exits 0. -/
def checkSchema (env : Option String) (w : World) : RunResult :=
  if urlTruthy env then
    let b := tryBody w
    match b.term with
    | Term.normal =>
      ⟨msgChecking :: b.output, 0, true, b.countIssued, b.aggIssued,
        b.curClosed, b.connClosed⟩
    | Term.systemExit c =>
      ⟨msgChecking :: b.output, c, true, b.countIssued, b.aggIssued,
        b.curClosed, b.connClosed⟩
    | Term.exn m =>
      ⟨msgChecking :: b.output ++ [dbErrorLine m], 1, true, b.countIssued,
        b.aggIssued, b.curClosed, b.connClosed⟩
  else
    ⟨[msgNoUrl], 1, false, false, false, false, false⟩

/-! ### Evaluation helpers -/

theorem roundHalfEven_intCast (n : Int) : roundHalfEven ((n : Rat)) = n := by
  simp only [roundHalfEven, Int.floor_intCast, sub_self]
  norm_num

theorem fracDigits_length (d n : Nat) : (fracDigits d n).length = d := by
  induction d generalizing n with
  | zero => rfl
  | succ d ih => simp [fracDigits, ih]

theorem fracStr_length (n d : Nat) : (fracStr n d).length = d := by
  simp [fracStr, String.length, fracDigits_length]

theorem formatFixed_zero_two : formatFixed 0 2 = "0.00" := by
  have h : (0 : Rat) * (10 : Rat) ^ 2 = ((0 : Int) : Rat) := by norm_num
  simp only [formatFixed, h, roundHalfEven_intCast]
  decide

theorem formatFixed_zero_zero : formatFixed 0 0 = "0" := by
  have h : (0 : Rat) * (10 : Rat) ^ 0 = ((0 : Int) : Rat) := by norm_num
  simp only [formatFixed, h, roundHalfEven_intCast]
  decide

theorem formatFixed_zero_one : formatFixed 0 1 = "0.0" := by
  have h : (0 : Rat) * (10 : Rat) ^ 1 = ((0 : Int) : Rat) := by norm_num
  simp only [formatFixed, h, roundHalfEven_intCast]
  decide

theorem formatFixed_five : formatFixed ((1 : Rat) / 20 * 100) 2 = "5.00" := by
  have h : ((1 : Rat) / 20 * 100) * (10 : Rat) ^ 2 = ((500 : Int) : Rat) := by
    norm_num
  simp only [formatFixed, h, roundHalfEven_intCast]
  decide

theorem urlTruthy_some {url : String} (h : url ≠ "") :
    urlTruthy (some url) = true := by
  have hb : url.isEmpty = false := by
    cases hb : url.isEmpty
    · rfl
    · exact absurd ((String.isEmpty_iff url).mp hb) h
  simp [urlTruthy, hb]

/-- Full evaluation of the `try` body on a healthy world with data. -/
theorem tryBody_eq_pos (w : World) (hconn : w.connectErr = none)
    (hcole : w.columnsErr = none) (hcnt : w.countErr = none)
    (hagg : w.aggErr = none) (hne : w.columns ≠ [])
    (hpos : 0 < w.rows.length) :
    tryBody w =
      ⟨foundLine w.columns.length :: w.columns.map columnLine
         ++ missingPart (missing_columns (w.columns.map ColumnInfo.column_name))
         ++ [countLine w.rows.length] ++ statsLines (aggQuery w),
       true, true, true, true, Term.normal⟩ := by
  have hie : w.columns.isEmpty = false := by
    simp [List.isEmpty_eq_false, hne]
  simp [tryBody, hconn, hcole, hcnt, hagg, hie, hpos, List.append_assoc]

/-- Full evaluation of the `try` body on a healthy world with no rows. -/
theorem tryBody_eq_zero (w : World) (hconn : w.connectErr = none)
    (hcole : w.columnsErr = none) (hcnt : w.countErr = none)
    (hne : w.columns ≠ []) (hz : w.rows.length = 0) :
    tryBody w =
      ⟨foundLine w.columns.length :: w.columns.map columnLine
         ++ missingPart (missing_columns (w.columns.map ColumnInfo.column_name))
         ++ [countLine 0],
       true, false, true, true, Term.normal⟩ := by
  have hie : w.columns.isEmpty = false := by
    simp [List.isEmpty_eq_false, hne]
  simp [tryBody, hconn, hcole, hcnt, hie, hz, List.append_assoc]

/-- Full evaluation of the `try` body when the catalog query comes back
empty. -/
theorem tryBody_eq_noTable (w : World) (hconn : w.connectErr = none)
    (hcole : w.columnsErr = none) (hcols : w.columns = []) :
    tryBody w = ⟨[msgNoTable], false, false, false, false, Term.systemExit 1⟩ := by
  simp [tryBody, hconn, hcole, hcols]

/-- The run on a truthy URL, expressed through the body result. -/
theorem checkSchema_some {url : String} (h : url ≠ "") (w : World) :
    checkSchema (some url) w =
      (match (tryBody w).term with
        | Term.normal =>
          ⟨msgChecking :: (tryBody w).output, 0, true, (tryBody w).countIssued,
            (tryBody w).aggIssued, (tryBody w).curClosed, (tryBody w).connClosed⟩
        | Term.systemExit c =>
          ⟨msgChecking :: (tryBody w).output, c, true, (tryBody w).countIssued,
            (tryBody w).aggIssued, (tryBody w).curClosed, (tryBody w).connClosed⟩
        | Term.exn m =>
          ⟨msgChecking :: (tryBody w).output ++ [dbErrorLine m], 1, true,
            (tryBody w).countIssued, (tryBody w).aggIssued, (tryBody w).curClosed,
            (tryBody w).connClosed⟩) := by
  simp [checkSchema, urlTruthy_some h]

theorem dbErrorLine_data (m : String) :
    (dbErrorLine m).data = "❌ Database error: ".data ++ m.data := by
  cases m
  rfl

/-- Every string whose first four characters differ from those of the
generic database-error prefix is distinct from every generic error line. -/
theorem ne_dbErrorLine (s m : String)
    (h : s.data.take 4 ≠ "❌ Database error: ".data.take 4) :
    s ≠ dbErrorLine m := by
  intro he
  apply h
  have h2 := congrArg String.data he
  rw [dbErrorLine_data] at h2
  rw [h2, List.take_append_of_le_length (by decide)]

/-! ### Concrete worlds for instantiating the hypothesised theorems -/

/-- A healthy world: table with exactly the columns engagement_rate and
topic, two rows inside the 7-day window (one NULL engagement rate, one
equal to 0.1). -/
def wPos : World :=
  ⟨none, none,
   [⟨"engagement_rate", "numeric", "YES"⟩, ⟨"topic", "text", "YES"⟩],
   none, none,
   [⟨none, none, none, 100⟩, ⟨some (1 / 10), none, none, 100⟩], 100⟩

/-- A healthy world whose table exists but holds no rows at all. -/
def wZero : World :=
  ⟨none, none, [⟨"engagement_rate", "numeric", "YES"⟩], none, none, [], 0⟩

/-- A reachable database lacking the post_attribution table. -/
def wNoTable : World := ⟨none, none, [], none, none, [], 0⟩

/-- A healthy world with one row, posted outside the 7-day window. -/
def wStale : World :=
  ⟨none, none, [⟨"engagement_rate", "numeric", "YES"⟩], none, none,
   [⟨none, none, none, 0⟩], 10000000⟩

/-! ### The claims -/

/-- C5: if the DATABASE_URL environment variable is absent, the program
reports the missing configuration and exits with status 1 before
attempting any database connection or other I/O: the whole run consists
of the single configuration message, exit code 1, and no connection
attempt, no query, and no resource use. -/
theorem C5_config_gate (w : World) :
    checkSchema none w = ⟨[msgNoUrl], 1, false, false, false, false, false⟩ :=
  rfl

theorem C5_config_gate_witness :
    checkSchema none wPos = ⟨[msgNoUrl], 1, false, false, false, false, false⟩ :=
  C5_config_gate wPos

/-- C8: an empty-string DATABASE_URL is treated identically to an unset
variable by the truthiness check: the run is the same as with no
environment value at all — the missing-configuration message, exit 1,
and no connection attempt. -/
theorem C8_empty_url (w : World) :
    checkSchema (some "") w = checkSchema none w ∧
    (checkSchema (some "") w).exitCode = 1 ∧
    (checkSchema (some "") w).connectAttempted = false ∧
    (checkSchema (some "") w).output = [msgNoUrl] :=
  ⟨rfl, rfl, rfl, rfl⟩

theorem C8_empty_url_witness :
    checkSchema (some "") wPos = checkSchema none wPos ∧
    (checkSchema (some "") wPos).exitCode = 1 ∧
    (checkSchema (some "") wPos).connectAttempted = false ∧
    (checkSchema (some "") wPos).output = [msgNoUrl] :=
  C8_empty_url wPos

/-- C4: when the catalog query returns zero columns, the program prints
the table-does-not-exist message (distinct from every connection-failure
message), exits with status 1, and issues neither the row-count query
nor the aggregate query — in fact the output holds nothing beyond the
banner and that message, so the missing-column comparison is never
reported either. -/
theorem C4_table_gate (url : String) (hurl : url ≠ "") (w : World)
    (hconn : w.connectErr = none) (hcole : w.columnsErr = none)
    (hcols : w.columns = []) :
    (checkSchema (some url) w).output = [msgChecking, msgNoTable] ∧
    (checkSchema (some url) w).exitCode = 1 ∧
    (checkSchema (some url) w).countIssued = false ∧
    (checkSchema (some url) w).aggIssued = false ∧
    (∀ m : String, msgNoTable ≠ dbErrorLine m) := by
  rw [checkSchema_some hurl, tryBody_eq_noTable w hconn hcole hcols]
  exact ⟨rfl, rfl, rfl, rfl, fun m => ne_dbErrorLine _ _ (by decide)⟩

theorem C4_table_gate_witness :
    (checkSchema (some "postgresql://db") wNoTable).output = [msgChecking, msgNoTable] ∧
    (checkSchema (some "postgresql://db") wNoTable).exitCode = 1 ∧
    (checkSchema (some "postgresql://db") wNoTable).countIssued = false ∧
    (checkSchema (some "postgresql://db") wNoTable).aggIssued = false ∧
    (∀ m : String, msgNoTable ≠ dbErrorLine m) :=
  C4_table_gate "postgresql://db" (by decide) wNoTable rfl rfl rfl

/-- C9: the table-absence `exit(1)` raises SystemExit, which the
top-level `except Exception` does not intercept: in the model the body
terminates with `Term.systemExit 1`, the run exits 1, and the output
holds no generic database-error line. -/
theorem C9_systemExit_passthrough (url : String) (hurl : url ≠ "") (w : World)
    (hconn : w.connectErr = none) (hcole : w.columnsErr = none)
    (hcols : w.columns = []) :
    (tryBody w).term = Term.systemExit 1 ∧
    (checkSchema (some url) w).exitCode = 1 ∧
    (checkSchema (some url) w).output = [msgChecking, msgNoTable] ∧
    (∀ m : String, dbErrorLine m ∉ (checkSchema (some url) w).output) := by
  rw [checkSchema_some hurl, tryBody_eq_noTable w hconn hcole hcols]
  refine ⟨rfl, rfl, rfl, ?_⟩
  intro m hm
  have hm2 : dbErrorLine m ∈ [msgChecking, msgNoTable] := hm
  simp only [List.mem_cons, List.not_mem_nil, or_false] at hm2
  rcases hm2 with hm2 | hm2
  · exact ne_dbErrorLine msgChecking m (by decide) hm2.symm
  · exact ne_dbErrorLine msgNoTable m (by decide) hm2.symm

theorem C9_systemExit_passthrough_witness :
    (tryBody wNoTable).term = Term.systemExit 1 ∧
    (checkSchema (some "postgresql://db") wNoTable).exitCode = 1 ∧
    (checkSchema (some "postgresql://db") wNoTable).output = [msgChecking, msgNoTable] ∧
    (∀ m : String, dbErrorLine m ∉ (checkSchema (some "postgresql://db") wNoTable).output) :=
  C9_systemExit_passthrough "postgresql://db" (by decide) wNoTable rfl rfl rfl

/-- C3: on a healthy run over an existing table, the 7-day aggregate
query is issued if and only if the total row count is positive; with 0
rows the count line prints 0, the aggregate query is never issued, and
the run still completes with exit status 0. -/
theorem C3_zero_row_short_circuit (url : String) (hurl : url ≠ "") (w : World)
    (hconn : w.connectErr = none) (hcole : w.columnsErr = none)
    (hcnt : w.countErr = none) (hagg : w.aggErr = none)
    (hne : w.columns ≠ []) :
    ((checkSchema (some url) w).aggIssued = true ↔ 0 < w.rows.length) ∧
    (w.rows.length = 0 →
      countLine 0 ∈ (checkSchema (some url) w).output ∧
      (checkSchema (some url) w).aggIssued = false ∧
      (checkSchema (some url) w).exitCode = 0) := by
  rcases Nat.eq_zero_or_pos w.rows.length with hz | hpos
  · rw [checkSchema_some hurl, tryBody_eq_zero w hconn hcole hcnt hne hz]
    refine ⟨?_, fun _ => ⟨?_, rfl, rfl⟩⟩
    · simp [hz]
    · show countLine 0 ∈ msgChecking :: (foundLine w.columns.length ::
        w.columns.map columnLine
        ++ missingPart (missing_columns (w.columns.map ColumnInfo.column_name))
        ++ [countLine 0])
      simp
  · rw [checkSchema_some hurl, tryBody_eq_pos w hconn hcole hcnt hagg hne hpos]
    exact ⟨by simp [hpos], fun hz => absurd hz (by omega)⟩

theorem C3_zero_row_short_circuit_witness :
    ((checkSchema (some "postgresql://db") wZero).aggIssued = true ↔
      0 < wZero.rows.length) ∧
    (wZero.rows.length = 0 →
      countLine 0 ∈ (checkSchema (some "postgresql://db") wZero).output ∧
      (checkSchema (some "postgresql://db") wZero).aggIssued = false ∧
      (checkSchema (some "postgresql://db") wZero).exitCode = 0) :=
  C3_zero_row_short_circuit "postgresql://db" (by decide) wZero rfl rfl rfl rfl
    (by decide)

/-- The only `exit(c)` reachable inside the `try` body is `exit(1)`. -/
theorem tryBody_exit_one (w : World) {c : Nat}
    (h : (tryBody w).term = Term.systemExit c) : c = 1 := by
  rcases hce : w.connectErr with _ | m1
  · rcases hcle : w.columnsErr with _ | m2
    · cases hc : w.columns.isEmpty
      · rcases hcte : w.countErr with _ | m3
        · rcases Nat.eq_zero_or_pos w.rows.length with hz | hpos
          · simp [tryBody, hce, hcle, hc, hcte, hz] at h
          · rcases hae : w.aggErr with _ | m4
            · simp [tryBody, hce, hcle, hc, hcte, hae, hpos] at h
            · simp [tryBody, hce, hcle, hc, hcte, hae, hpos] at h
        · simp [tryBody, hce, hcle, hc, hcte] at h
      · simp [tryBody, hce, hcle, hc] at h
        omega
    · simp [tryBody, hce, hcle] at h
  · simp [tryBody, hce] at h

/-- Normal fall-through of the `try` body only happens after the cursor
and the connection have been closed. -/
theorem tryBody_normal_closed (w : World)
    (h : (tryBody w).term = Term.normal) :
    (tryBody w).curClosed = true ∧ (tryBody w).connClosed = true := by
  rcases hce : w.connectErr with _ | m1
  · rcases hcle : w.columnsErr with _ | m2
    · cases hc : w.columns.isEmpty
      · rcases hcte : w.countErr with _ | m3
        · rcases Nat.eq_zero_or_pos w.rows.length with hz | hpos
          · simp [tryBody, hce, hcle, hc, hcte, hz]
          · rcases hae : w.aggErr with _ | m4
            · simp [tryBody, hce, hcle, hc, hcte, hae, hpos]
            · simp [tryBody, hce, hcle, hc, hcte, hae, hpos] at h
        · simp [tryBody, hce, hcle, hc, hcte] at h
      · simp [tryBody, hce, hcle, hc] at h
    · simp [tryBody, hce, hcle] at h
  · simp [tryBody, hce] at h

/-- C6: with a truthy connection string, every run terminates with exit
status 0 or 1 — no exception escapes to the caller.  Whenever the body
raises an ordinary exception, the run appends exactly the generic
database-error line carrying the native message and exits 1; whenever
the body falls through normally, the run exits 0 and both the cursor and
the connection have been released. -/
theorem C6_catch_all (env : Option String) (url : String) (w : World)
    (henv : env = some url) (hurl : url ≠ "") :
    ((checkSchema env w).exitCode = 0 ∨ (checkSchema env w).exitCode = 1) ∧
    (∀ m : String, (tryBody w).term = Term.exn m →
      (checkSchema env w).output =
        msgChecking :: (tryBody w).output ++ [dbErrorLine m] ∧
      (checkSchema env w).exitCode = 1) ∧
    ((tryBody w).term = Term.normal →
      (checkSchema env w).exitCode = 0 ∧
      (tryBody w).curClosed = true ∧ (tryBody w).connClosed = true) := by
  subst henv
  have hclosed := @tryBody_normal_closed w
  rw [checkSchema_some hurl]
  rcases ht : (tryBody w).term with _ | c | m
  · refine ⟨Or.inl rfl, ?_, fun _ => ⟨rfl, hclosed ht⟩⟩
    intro m hm
    simp at hm
  · have hc1 : c = 1 := tryBody_exit_one w ht
    subst hc1
    refine ⟨Or.inr rfl, ?_, ?_⟩
    · intro m hm
      simp at hm
    · intro hm
      simp at hm
  · refine ⟨Or.inr rfl, ?_, ?_⟩
    · intro m2 hm
      injection hm with hmm
      subst hmm
      exact ⟨rfl, rfl⟩
    · intro hm
      simp at hm

theorem C6_catch_all_witness :
    (((checkSchema (some "postgresql://db") wPos).exitCode = 0 ∨
      (checkSchema (some "postgresql://db") wPos).exitCode = 1) ∧
    (∀ m : String, (tryBody wPos).term = Term.exn m →
      (checkSchema (some "postgresql://db") wPos).output =
        msgChecking :: (tryBody wPos).output ++ [dbErrorLine m] ∧
      (checkSchema (some "postgresql://db") wPos).exitCode = 1) ∧
    ((tryBody wPos).term = Term.normal →
      (checkSchema (some "postgresql://db") wPos).exitCode = 0 ∧
      (tryBody wPos).curClosed = true ∧ (tryBody wPos).connClosed = true)) :=
  C6_catch_all (some "postgresql://db") "postgresql://db" wPos rfl (by decide)

/-- C1: for every table whose existing column set is exactly
{engagement_rate, topic}, the missing-columns list is exactly
[impressions, followers_gained, hook_pattern, generator_used] in that
order (the essential-list order), the warning naming them is printed,
and a healthy run still completes with exit status 0. -/
theorem C1_missing_order (url : String) (hurl : url ≠ "") (w : World)
    (hconn : w.connectErr = none) (hcole : w.columnsErr = none)
    (hcnt : w.countErr = none) (hagg : w.aggErr = none)
    (hset : ∀ c : String, c ∈ w.columns.map ColumnInfo.column_name ↔
      (c = "engagement_rate" ∨ c = "topic")) :
    missing_columns (w.columns.map ColumnInfo.column_name) =
      ["impressions", "followers_gained", "hook_pattern", "generator_used"] ∧
    msgMissing ["impressions", "followers_gained", "hook_pattern", "generator_used"]
      ∈ (checkSchema (some url) w).output ∧
    (checkSchema (some url) w).exitCode = 0 := by
  have hne : w.columns ≠ [] := by
    intro hnil
    have h1 : "engagement_rate" ∈ w.columns.map ColumnInfo.column_name :=
      (hset _).mpr (Or.inl rfl)
    rw [hnil] at h1
    simp at h1
  have hin : ∀ c : String, c ∈ w.columns.map ColumnInfo.column_name →
      (w.columns.map ColumnInfo.column_name).contains c = true := fun c hc =>
    List.elem_eq_true_of_mem hc
  have hout : ∀ c : String, c ∉ w.columns.map ColumnInfo.column_name →
      (w.columns.map ColumnInfo.column_name).contains c = false := by
    intro c hc
    cases hb : (w.columns.map ColumnInfo.column_name).contains c
    · rfl
    · exact absurd (List.mem_of_elem_eq_true hb) hc
  have h1 := hin _ ((hset "engagement_rate").mpr (Or.inl rfl))
  have h5 := hin _ ((hset "topic").mpr (Or.inr rfl))
  have h2 := hout "impressions"
    (by intro hc; rcases (hset _).mp hc with h | h <;> exact absurd h (by decide))
  have h3 := hout "followers_gained"
    (by intro hc; rcases (hset _).mp hc with h | h <;> exact absurd h (by decide))
  have h4 := hout "hook_pattern"
    (by intro hc; rcases (hset _).mp hc with h | h <;> exact absurd h (by decide))
  have h6 := hout "generator_used"
    (by intro hc; rcases (hset _).mp hc with h | h <;> exact absurd h (by decide))
  have hmiss : missing_columns (w.columns.map ColumnInfo.column_name) =
      ["impressions", "followers_gained", "hook_pattern", "generator_used"] := by
    simp only [missing_columns, essential_columns, List.filter_cons,
      List.filter_nil, h1, h2, h3, h4, h5, h6, Bool.not_true, Bool.not_false]
    simp
  have hmp : missingPart (missing_columns (w.columns.map ColumnInfo.column_name)) =
      [msgMissing ["impressions", "followers_gained", "hook_pattern",
        "generator_used"], msgMissingTool] := by
    rw [hmiss]
    rfl
  rcases Nat.eq_zero_or_pos w.rows.length with hz | hpos
  · rw [checkSchema_some hurl, tryBody_eq_zero w hconn hcole hcnt hne hz]
    refine ⟨hmiss, ?_, rfl⟩
    simp [hmp]
  · rw [checkSchema_some hurl, tryBody_eq_pos w hconn hcole hcnt hagg hne hpos]
    refine ⟨hmiss, ?_, rfl⟩
    simp [hmp]

theorem C1_missing_order_witness :
    missing_columns (wPos.columns.map ColumnInfo.column_name) =
      ["impressions", "followers_gained", "hook_pattern", "generator_used"] ∧
    msgMissing ["impressions", "followers_gained", "hook_pattern", "generator_used"]
      ∈ (checkSchema (some "postgresql://db") wPos).output ∧
    (checkSchema (some "postgresql://db") wPos).exitCode = 0 :=
  C1_missing_order "postgresql://db" (by decide) wPos rfl rfl rfl rfl
    (by intro c; simp [wPos])

/-- C2: with exactly two rows inside the 7-day window, one with NULL
engagement rate and one with engagement rate 0.1, the aggregate average
engagement is 0.05 and the printed line reads 5.00% — NULL is coalesced
to zero before averaging, not excluded; and in general each of the three
averages is the sum of the zero-coalesced values divided by the number
of all rows in the window. -/
theorem C2_null_safe_avg (url : String) (hurl : url ≠ "") (w : World)
    (r1 r2 : Row) (hconn : w.connectErr = none) (hcole : w.columnsErr = none)
    (hcnt : w.countErr = none) (hagg : w.aggErr = none) (hne : w.columns ≠ [])
    (hr : recentRows w = [r1, r2]) (h1 : r1.engagement_rate = none)
    (h2 : r2.engagement_rate = some (1 / 10)) :
    (aggQuery w).avg_engagement = some (1 / 20) ∧
    engagementLine (aggQuery w) = "  - Avg Engagement: 5.00%" ∧
    engagementLine (aggQuery w) ∈ (checkSchema (some url) w).output ∧
    (∀ v : World, recentRows v ≠ [] →
      (aggQuery v).avg_engagement =
        some (((recentRows v).map (fun r => coalesceRat r.engagement_rate)).sum /
          ((recentRows v).length : Rat)) ∧
      (aggQuery v).avg_views =
        some (((recentRows v).map
            (fun r => ((coalesceInt r.impressions : Int) : Rat))).sum /
          ((recentRows v).length : Rat)) ∧
      (aggQuery v).avg_followers =
        some (((recentRows v).map
            (fun r => ((coalesceInt r.followers_gained : Int) : Rat))).sum /
          ((recentRows v).length : Rat))) := by
  have havg : (aggQuery w).avg_engagement = some (1 / 20) := by
    simp only [aggQuery, hr]
    simp [sqlAvg, coalesceRat, h1, h2]
    norm_num
  have hline : engagementLine (aggQuery w) = "  - Avg Engagement: 5.00%" := by
    rw [engagementLine, havg]
    have hz : orZeroRat (some ((1 : Rat) / 20)) = (1 : Rat) / 20 := by
      norm_num [orZeroRat]
    rw [hz, formatFixed_five]
    decide
  have hpos : 0 < w.rows.length := by
    have hr1 : r1 ∈ recentRows w := by
      rw [hr]
      simp
    exact List.length_pos_of_mem (List.mem_filter.mp hr1).1
  refine ⟨havg, hline, ?_, ?_⟩
  · rw [checkSchema_some hurl, tryBody_eq_pos w hconn hcole hcnt hagg hne hpos]
    simp [statsLines]
  · intro v hv
    refine ⟨?_, ?_, ?_⟩ <;>
      simp [aggQuery, sqlAvg, List.isEmpty_eq_false, hv]

theorem C2_null_safe_avg_witness :
    (aggQuery wPos).avg_engagement = some (1 / 20) ∧
    engagementLine (aggQuery wPos) = "  - Avg Engagement: 5.00%" ∧
    engagementLine (aggQuery wPos) ∈ (checkSchema (some "postgresql://db") wPos).output ∧
    (∀ v : World, recentRows v ≠ [] →
      (aggQuery v).avg_engagement =
        some (((recentRows v).map (fun r => coalesceRat r.engagement_rate)).sum /
          ((recentRows v).length : Rat)) ∧
      (aggQuery v).avg_views =
        some (((recentRows v).map
            (fun r => ((coalesceInt r.impressions : Int) : Rat))).sum /
          ((recentRows v).length : Rat)) ∧
      (aggQuery v).avg_followers =
        some (((recentRows v).map
            (fun r => ((coalesceInt r.followers_gained : Int) : Rat))).sum /
          ((recentRows v).length : Rat))) :=
  C2_null_safe_avg "postgresql://db" (by decide) wPos
    ⟨none, none, none, 100⟩ ⟨some (1 / 10), none, none, 100⟩
    rfl rfl rfl rfl (by decide) rfl rfl rfl

/-- C7: the statistics lines format the average engagement as a
percentage — the value multiplied by 100 — with exactly two digits after
the decimal point, the average views with no decimal point at all (zero
decimal places), and the average followers with exactly one digit after
the decimal point. -/
theorem C7_formatting :
    (∀ s : AggStats,
      engagementLine s =
        "  - Avg Engagement: " ++
          formatFixed (orZeroRat s.avg_engagement * 100) 2 ++ "%" ∧
      viewsLine s = "  - Avg Views: " ++ formatFixed (orZeroRat s.avg_views) 0 ∧
      followersLine s =
        "  - Avg Followers: " ++ formatFixed (orZeroRat s.avg_followers) 1) ∧
    (∀ q : Rat, ∃ p f, formatFixed q 2 = p ++ "." ++ f ∧ f.length = 2) ∧
    (∀ q : Rat, ∃ p f, formatFixed q 1 = p ++ "." ++ f ∧ f.length = 1) ∧
    (∀ q : Rat, formatFixed q 0 =
      (if roundHalfEven q < 0 then "-" else "") ++
        Nat.repr (roundHalfEven q).natAbs) := by
  refine ⟨fun s => ⟨rfl, rfl, rfl⟩, ?_, ?_, ?_⟩
  · intro q
    refine ⟨(if roundHalfEven (q * (10 : Rat) ^ 2) < 0 then "-" else "") ++
        Nat.repr ((roundHalfEven (q * (10 : Rat) ^ 2)).natAbs / 10 ^ 2),
      fracStr ((roundHalfEven (q * (10 : Rat) ^ 2)).natAbs % 10 ^ 2) 2,
      ?_, fracStr_length _ _⟩
    simp [formatFixed, String.append_assoc]
  · intro q
    refine ⟨(if roundHalfEven (q * (10 : Rat) ^ 1) < 0 then "-" else "") ++
        Nat.repr ((roundHalfEven (q * (10 : Rat) ^ 1)).natAbs / 10 ^ 1),
      fracStr ((roundHalfEven (q * (10 : Rat) ^ 1)).natAbs % 10 ^ 1) 1,
      ?_, fracStr_length _ _⟩
    simp [formatFixed, String.append_assoc]
  · intro q
    have hq : q * (10 : Rat) ^ 0 = q := by norm_num
    simp [formatFixed, hq]

/-- C10: when the table has rows but none inside the 7-day window, the
aggregate comes back with NULL averages and a NULL maximum timestamp;
the `or 0` fallback turns the NULL averages into 0 before formatting, so
the run prints 0.00%, 0 and 0.0, prints None for the most recent post,
and still completes with exit status 0. -/
theorem C10_empty_window (url : String) (hurl : url ≠ "") (w : World)
    (hconn : w.connectErr = none) (hcole : w.columnsErr = none)
    (hcnt : w.countErr = none) (hagg : w.aggErr = none) (hne : w.columns ≠ [])
    (hpos : 0 < w.rows.length) (hrec : recentRows w = []) :
    aggQuery w = ⟨0, none, none, none, none⟩ ∧
    engagementLine (aggQuery w) = "  - Avg Engagement: 0.00%" ∧
    viewsLine (aggQuery w) = "  - Avg Views: 0" ∧
    followersLine (aggQuery w) = "  - Avg Followers: 0.0" ∧
    recentLine (aggQuery w) = "  - Most Recent: None" ∧
    engagementLine (aggQuery w) ∈ (checkSchema (some url) w).output ∧
    (checkSchema (some url) w).exitCode = 0 := by
  have hagg0 : aggQuery w = ⟨0, none, none, none, none⟩ := by
    simp [aggQuery, hrec, sqlAvg]
  have hz100 : orZeroRat none * 100 = (0 : Rat) := by
    norm_num [orZeroRat]
  have hz : orZeroRat none = (0 : Rat) := by
    norm_num [orZeroRat]
  refine ⟨hagg0, ?_, ?_, ?_, ?_, ?_, ?_⟩
  · rw [hagg0]
    show "  - Avg Engagement: " ++ formatFixed (orZeroRat none * 100) 2 ++ "%" =
      "  - Avg Engagement: 0.00%"
    rw [hz100, formatFixed_zero_two]
    decide
  · rw [hagg0]
    show "  - Avg Views: " ++ formatFixed (orZeroRat none) 0 = "  - Avg Views: 0"
    rw [hz, formatFixed_zero_zero]
    decide
  · rw [hagg0]
    show "  - Avg Followers: " ++ formatFixed (orZeroRat none) 1 =
      "  - Avg Followers: 0.0"
    rw [hz, formatFixed_zero_one]
    decide
  · rw [hagg0]
    decide
  · rw [checkSchema_some hurl, tryBody_eq_pos w hconn hcole hcnt hagg hne hpos]
    simp [statsLines]
  · rw [checkSchema_some hurl, tryBody_eq_pos w hconn hcole hcnt hagg hne hpos]

theorem C10_empty_window_witness :
    aggQuery wStale = ⟨0, none, none, none, none⟩ ∧
    engagementLine (aggQuery wStale) = "  - Avg Engagement: 0.00%" ∧
    viewsLine (aggQuery wStale) = "  - Avg Views: 0" ∧
    followersLine (aggQuery wStale) = "  - Avg Followers: 0.0" ∧
    recentLine (aggQuery wStale) = "  - Most Recent: None" ∧
    engagementLine (aggQuery wStale) ∈
      (checkSchema (some "postgresql://db") wStale).output ∧
    (checkSchema (some "postgresql://db") wStale).exitCode = 0 :=
  C10_empty_window "postgresql://db" (by decide) wStale rfl rfl rfl rfl
    (by decide) (by decide) rfl

end CheckSchema
